import Mathlib


/-!
Shallow embedding of the Timestock inventory backend (`backend/database.py`).

The datastore is modelled as an explicit record of tables (`DB`); each
embedded operation is a pure function from a `DB` and its input payload to
a result together with the observable post-state.  A Python function that
runs inside an explicit `BEGIN … ROLLBACK` block is embedded so that an
error outcome leaves the caller's `DB` untouched (the rollback), while
writes issued *outside* the transaction block (notably the inline-customer
insert of `create_order_transaction`, which the source performs before
`BEGIN`) are kept in the returned state even on failure.

Numeric quantities, costs and prices are embedded as `Int`; generated row
ids (`RETURNING id`) are drawn from a `nextId` counter.  String
normalisation mirrors Python: `pyStrip` is `.strip()`, `pyTitle` is
`.title()` restricted to ASCII case mapping, and SQL `LOWER` is
`String.toLower`.  The `items`/`materials`/`products` catalogue rows are
denormalised (a material row carries its joined `item_name` and
`unit_measurement` directly), since every query in scope joins them 1:1.

Stock ledger rows (`stock_transactions` + `stock_transaction_items`)
carry a `direction` tag recording which operation wrote them, mirroring
the data model of the spec (RECEIPT for `stock_materials`, CONSUMPTION
for `create_order_transaction`); the raw `stock_type_id` column value is
kept alongside it.

Error exits (`raise ValueError` / `raise HTTPException`) are embedded as
inductive error values carrying the same data that the Python message
interpolates (for the insufficient-stock rejection: the name, needed,
available and unit of every listed material, in list order).
-/

/-- Python `str.strip()`: drop leading and trailing whitespace. -/
def pyStrip (s : String) : String :=
  String.mk (((s.data.dropWhile Char.isWhitespace).reverse.dropWhile
    Char.isWhitespace).reverse)

/-- One step of Python `str.title()`: the Bool records whether the previous
character was alphabetic. -/
def titleAux : Bool → List Char → List Char
  | _, [] => []
  | prevAlpha, c :: cs =>
    if c.isAlpha then
      (if prevAlpha then c.toLower else c.toUpper) :: titleAux true cs
    else
      c :: titleAux false cs

/-- Python `str.title()` (ASCII case mapping). -/
def pyTitle (s : String) : String := String.mk (titleAux false s.data)

/-- Direction of a stock movement, per the operation that recorded it. -/
inductive Direction
  | receipt
  | consumption
deriving DecidableEq, Repr

/-- A `materials` row, denormalised with its joined `items` row
(`item_name`) — every query in scope performs that 1:1 join. -/
structure Material where
  item_name : String
  unit_measurement : String
  material_cost : Int
  current_stock : Int
  supplier_id : Option Nat
deriving DecidableEq, Repr

/-- A `product_materials` (BOM) row. -/
structure BOMLine where
  product_id : Nat
  material_id : Nat
  used_quantity : Int
  unit_cost : Int
deriving DecidableEq, Repr

/-- A `products` row (only the column the engine reads). -/
structure Product where
  unit_price : Int
deriving DecidableEq, Repr

/-- A `customers` row. -/
structure Customer where
  firstname : String
  lastname : String
  contact_number : String
  email : String
  address : String
deriving DecidableEq, Repr

/-- A `suppliers` row. -/
structure Supplier where
  firstname : String
  lastname : String
  contact_name : String
  contact_number : String
  email : String
  address : String
deriving DecidableEq, Repr

/-- An `order_transactions` row. -/
structure OrderTxn where
  id : Nat
  customer_id : Nat
  status_id : Nat
  admin_id : Nat
  total_amount : Int
deriving DecidableEq, Repr

/-- An `order_items` row. -/
structure OrderItem where
  order_id : Nat
  product_id : Nat
  quantity : Int
  unit_price : Int
deriving DecidableEq, Repr

/-- A `stock_transactions` row, tagged with the direction of the writing
operation (see header comment). -/
structure StockTxn where
  id : Nat
  direction : Direction
  stock_type_id : String
  supplier_id : Nat
  admin_id : Option Nat
  employee_id : Option Nat
deriving DecidableEq, Repr

/-- A `stock_transaction_items` row. -/
structure StockTxnItem where
  stock_transaction_id : Nat
  material_id : Nat
  quantity : Int
deriving DecidableEq, Repr

/-- The datastore: each field is a table, keyed rows as (id, row) pairs
where the id is referenced elsewhere.  `stock_types` rows are
(id, type_code); `order_statuses` rows are (id, status_code);
`nextId` feeds `RETURNING id`. -/
structure DB where
  nextId : Nat
  materials : List (Nat × Material)
  product_materials : List BOMLine
  products : List (Nat × Product)
  suppliers : List (Nat × Supplier)
  stock_types : List (String × String)
  order_statuses : List (Nat × String)
  customers : List (Nat × Customer)
  order_transactions : List OrderTxn
  order_items : List OrderItem
  stock_transactions : List StockTxn
  stock_transaction_items : List StockTxnItem
deriving DecidableEq, Repr

/-- `SELECT … FROM materials WHERE id = ?` (first matching row). -/
def findMaterial (db : DB) (mid : Nat) : Option Material :=
  (db.materials.find? (fun p => p.1 = mid)).map (·.2)

/-- `SELECT unit_price FROM products WHERE id = ?` (first matching row). -/
def findProduct (db : DB) (pid : Nat) : Option Product :=
  (db.products.find? (fun p => p.1 = pid)).map (·.2)

/-- `UPDATE materials SET current_stock = current_stock + delta WHERE id = ?`:
adjusts every row whose key matches (no error when none does). -/
def updateStock (mats : List (Nat × Material)) (mid : Nat) (delta : Int) :
    List (Nat × Material) :=
  mats.map (fun p =>
    if p.1 = mid then (p.1, { p.2 with current_stock := p.2.current_stock + delta }) else p)

/-! ## BOM Ledger: `add_product_materials`, `get_product_materials_by_product_id` -/

/-- One element of the `materials` list payload of `add_product_materials`. -/
structure MaterialInput where
  material_id : Nat
  used_quantity : Int
  unit_cost : Option Int
deriving DecidableEq, Repr

/-- Error exits of `add_product_materials`
(`ValueError: Material with ID … not found`). -/
inductive BomError
  | materialNotFound (material_id : Nat)
deriving DecidableEq, Repr

/-- The per-material loop of `add_product_materials`: skip the pair if a
`product_materials` row already exists, otherwise default the unit cost
from the material row (failing when that row is missing) and insert.
There is no transaction: on failure the rows already inserted by this
call are kept. -/
def addBomLoop (product_id : Nat) (db : DB) :
    List MaterialInput → DB × Except BomError Unit
  | [] => (db, .ok ())
  | m :: rest =>
    if db.product_materials.any
        (fun l => l.product_id = product_id ∧ l.material_id = m.material_id) then
      addBomLoop product_id db rest
    else
      match m.unit_cost with
      | some c =>
        addBomLoop product_id
          { db with product_materials :=
              db.product_materials ++ [⟨product_id, m.material_id, m.used_quantity, c⟩] }
          rest
      | none =>
        match findMaterial db m.material_id with
        | none => (db, .error (.materialNotFound m.material_id))
        | some mat =>
          addBomLoop product_id
            { db with product_materials :=
                db.product_materials ++
                  [⟨product_id, m.material_id, m.used_quantity, mat.material_cost⟩] }
            rest

/-- `add_product_materials` (backend/database.py:46). -/
def add_product_materials (db : DB) (product_id : Nat) (materials : List MaterialInput) :
    DB × Except BomError Unit :=
  addBomLoop product_id db materials

/-- A row of the `get_product_materials_by_product_id` result set. -/
structure BomRow where
  material_id : Nat
  item_name : String
  unit_measurement : String
  used_quantity : Int
  unit_cost : Int
deriving DecidableEq, Repr

/-- `get_product_materials_by_product_id` (backend/database.py:90): the
BOM rows of a product joined with their material rows (an inner join, so
a BOM row whose material is missing is dropped).  Returns a plain list —
the empty list, not an error, when the product has no BOM rows. -/
def get_product_materials_by_product_id (db : DB) (product_id : Nat) : List BomRow :=
  (db.product_materials.filter (fun l => l.product_id = product_id)).filterMap
    (fun l =>
      match findMaterial db l.material_id with
      | none => none
      | some m =>
        some ⟨l.material_id, m.item_name, m.unit_measurement, l.used_quantity, l.unit_cost⟩)

/-! ## Stock receiving: `stock_materials` -/

/-- The inline `supplier` payload of `stock_materials`. -/
structure SupplierInput where
  contact_name : String
  contact_number : String
  email : String
  firstname : String
  lastname : String
  address : String
deriving DecidableEq, Repr

/-- One element of the `items` payload of `stock_materials`. -/
structure StockItemInput where
  material_id : Nat
  quantity : Int
deriving DecidableEq, Repr

/-- The `data` payload of `stock_materials`. -/
structure StockData where
  supplier_id : Option Nat
  supplier : Option SupplierInput
  stock_type_id : Option String
  admin_id : Option Nat
  employee_id : Option Nat
  items : List StockItemInput
deriving DecidableEq, Repr

/-- Error exits of `stock_materials` (each a `raise ValueError` inside the
transaction, hence rolled back). -/
inductive StockError
  | duplicateSupplier
  | supplierRequired
  | stockTypeNotFound
  | missingActor
deriving DecidableEq, Repr

/-- Step 0 of `stock_materials`: use the given `supplier_id`, or create a
supplier from the inline payload (rejecting a duplicate contact name,
case-insensitively), or fail when neither is present. -/
def resolveSupplier (db : DB) (data : StockData) : Except StockError (DB × Nat) :=
  match data.supplier_id with
  | some sid => .ok (db, sid)
  | none =>
    match data.supplier with
    | some s =>
      let cname := pyTitle (pyStrip s.contact_name)
      if db.suppliers.any (fun p => p.2.contact_name.toLower = cname.toLower) then
        .error .duplicateSupplier
      else
        .ok ({ db with
                nextId := db.nextId + 1,
                suppliers := db.suppliers ++
                  [(db.nextId,
                    { firstname := pyTitle (pyStrip s.firstname),
                      lastname := pyTitle (pyStrip s.lastname),
                      contact_name := cname,
                      contact_number := pyStrip s.contact_number,
                      email := pyStrip s.email,
                      address := pyTitle (pyStrip s.address) })] },
              db.nextId)
    | none => .error .supplierRequired

/-- Step 1 of `stock_materials`: the given `stock_type_id`, or the id of
the `stock_types` row whose `type_code` is STT001. -/
def resolveStockType (db : DB) (data : StockData) : Except StockError String :=
  match data.stock_type_id with
  | some st => .ok st
  | none =>
    match db.stock_types.find? (fun p => p.2 = "STT001") with
    | some p => .ok p.1
    | none => .error .stockTypeNotFound

/-- One line of step 3 of `stock_materials`: insert a
`stock_transaction_items` row and add its quantity to the material's
`current_stock`.  No validation of the quantity is performed. -/
def receiveStep (tid : Nat) (db : DB) (it : StockItemInput) : DB :=
  { db with
      stock_transaction_items :=
        db.stock_transaction_items ++ [⟨tid, it.material_id, it.quantity⟩],
      materials := updateStock db.materials it.material_id it.quantity }

/-- Step 3 of `stock_materials`: the per-line loop. -/
def stockItemsLoop (tid : Nat) (db : DB) : List StockItemInput → DB
  | [] => db
  | it :: rest => stockItemsLoop tid (receiveStep tid db it) rest

/-- Step 2 of `stock_materials`: insert the `stock_transactions` header
row (a RECEIPT) under a fresh id. -/
def insertStockTxn (db : DB) (stid : String) (sid : Nat) (a e : Option Nat) : DB :=
  { db with
      nextId := db.nextId + 1,
      stock_transactions :=
        db.stock_transactions ++ [⟨db.nextId, .receipt, stid, sid, a, e⟩] }

/-- `stock_materials` (backend/database.py:487).  The whole body runs in
one transaction: an error outcome leaves the caller's `DB` unchanged. -/
def stock_materials (db : DB) (data : StockData) : Except StockError (DB × Nat) :=
  match resolveSupplier db data with
  | .error e => .error e
  | .ok (db0, sid) =>
    match resolveStockType db0 data with
    | .error e => .error e
    | .ok stid =>
      match data.admin_id, data.employee_id with
      | none, none => .error .missingActor
      | _, _ =>
        .ok (stockItemsLoop db0.nextId
              (insertStockTxn db0 stid sid data.admin_id data.employee_id) data.items,
            db0.nextId)

/-! ## Order fulfillment: `create_order_transaction` -/

/-- The inline `customer` payload of `create_order_transaction`. -/
structure CustomerInput where
  firstname : String
  lastname : String
  contact_number : String
  email : String
  address : String
deriving DecidableEq, Repr

/-- One element of the `items` payload of `create_order_transaction`. -/
structure OrderItemInput where
  product_id : Nat
  quantity : Int
deriving DecidableEq, Repr

/-- The `data` payload of `create_order_transaction`. -/
structure OrderData where
  customer_id : Option Nat
  customer : Option CustomerInput
  status_id : Nat
  admin_id : Nat
  items : List OrderItemInput
deriving DecidableEq, Repr

/-- The normalisation applied by the inline-customer INSERT. -/
def mkCustomer (cd : CustomerInput) : Customer :=
  { firstname := pyTitle (pyStrip cd.firstname),
    lastname := pyTitle (pyStrip cd.lastname),
    contact_number := pyStrip cd.contact_number,
    email := pyStrip cd.email,
    address := pyTitle (pyStrip cd.address) }

/-- The accumulator value of the `material_requirements` dict. -/
structure Requirement where
  needed : Int
  available : Int
  item_name : String
  unit : String
deriving DecidableEq, Repr

/-- Error exits of `create_order_transaction`.  `insufficientStock`
carries, in list order, the (name, needed, available, unit) data that the
Python message interpolates for each listed material. -/
inductive OrderError
  | invalidInput
  | insufficientStock (lacking : List Requirement)
  | productNotFound (product_id : Nat)
  | missingSupplier (material_id : Nat)
deriving DecidableEq, Repr

/-- The joined row set of the pre-check query (BOM rows of a product with
their material's `current_stock`, `item_name` and `unit_measurement`;
inner join, so rows with a missing material are dropped). -/
def precheckRows (db : DB) (pid : Nat) : List (Nat × Int × Material) :=
  (db.product_materials.filter (fun l => l.product_id = pid)).filterMap
    (fun l =>
      match findMaterial db l.material_id with
      | none => none
      | some m => some (l.material_id, l.used_quantity, m))

/-- Python dict assignment `d[k] = v`: overwrite in place when the key
exists (keeping its insertion position), else append. -/
def setReq (reqs : List (Nat × Requirement)) (mid : Nat) (r : Requirement) :
    List (Nat × Requirement) :=
  if reqs.any (fun p => p.1 = mid) then
    reqs.map (fun p => if p.1 = mid then (mid, r) else p)
  else
    reqs ++ [(mid, r)]

/-- `d[k]["needed"] += delta`. -/
def addNeeded (reqs : List (Nat × Requirement)) (mid : Nat) (delta : Int) :
    List (Nat × Requirement) :=
  reqs.map (fun p =>
    if p.1 = mid then (p.1, { p.2 with needed := p.2.needed + delta }) else p)

/-- The inner body of the pre-check loop, exactly as in the source: the
dict entry is unconditionally reassigned to a fresh accumulator with
`needed = 0` before `needed` is incremented by this row's demand. -/
def precheckRow (quantity : Int) (reqs : List (Nat × Requirement))
    (row : Nat × Int × Material) : List (Nat × Requirement) :=
  addNeeded
    (setReq reqs row.1
      ⟨0, row.2.2.current_stock, row.2.2.item_name, row.2.2.unit_measurement⟩)
    row.1 (row.2.1 * quantity)

/-- Step 1 of `create_order_transaction`: build `material_requirements`
over all order lines. -/
def precheckLines (db : DB) (reqs : List (Nat × Requirement)) :
    List OrderItemInput → List (Nat × Requirement)
  | [] => reqs
  | it :: rest =>
    precheckLines db ((precheckRows db it.product_id).foldl (precheckRow it.quantity) reqs) rest

/-- The `lacking_materials` comprehension: every accumulator with
`needed > available`, in dict order. -/
def lackingMaterials (reqs : List (Nat × Requirement)) : List Requirement :=
  (reqs.filter (fun p => p.2.needed > p.2.available)).map (·.2)

/-- The per-material inner loop of step 3: resolve the material's
supplier (failing when the material row or its supplier id is missing),
insert one CONSUMPTION `stock_transactions` row (type STT002, admin
actor), one `stock_transaction_items` row sized to this line's own
`used_quantity × quantity`, and decrement `current_stock` by the same
amount. -/
def consumeStep (admin_id : Nat) (db : DB) (mid sid : Nat) (total_used : Int) : DB :=
  { db with
      nextId := db.nextId + 1,
      stock_transactions :=
        db.stock_transactions ++
          [⟨db.nextId, .consumption, "STT002", sid, some admin_id, none⟩],
      stock_transaction_items :=
        db.stock_transaction_items ++ [⟨db.nextId, mid, total_used⟩],
      materials := updateStock db.materials mid (-total_used) }

/-- The per-material consumption loop of step 3 (see `consumeStep`). -/
def applyMaterials (admin_id : Nat) (quantity : Int) (db : DB) :
    List (Nat × Int) → Except OrderError DB
  | [] => .ok db
  | (mid, used_qty) :: rest =>
    match findMaterial db mid with
    | none => .error (.missingSupplier mid)
    | some mat =>
      match mat.supplier_id with
      | none => .error (.missingSupplier mid)
      | some sid =>
        applyMaterials admin_id quantity
          (consumeStep admin_id db mid sid (used_qty * quantity)) rest

/-- Step 3 of `create_order_transaction`: for each order line look up the
product's `unit_price` (failing when the product row is missing),
accumulate the line total, run the per-material consumption loop over the
product's BOM rows (this query has no join, so rows with a missing
material reach `applyMaterials` and fail there), then insert the
`order_items` row. -/
def applyItems (admin_id tid : Nat) (db : DB) (total : Int) :
    List OrderItemInput → Except OrderError (DB × Int)
  | [] => .ok (db, total)
  | it :: rest =>
    match findProduct db it.product_id with
    | none => .error (.productNotFound it.product_id)
    | some prod =>
      match applyMaterials admin_id it.quantity db
          ((db.product_materials.filter (fun l => l.product_id = it.product_id)).map
            (fun l => (l.material_id, l.used_quantity))) with
      | .error e => .error e
      | .ok db1 =>
        applyItems admin_id tid
          { db1 with
              order_items :=
                db1.order_items ++ [⟨tid, it.product_id, it.quantity, prod.unit_price⟩] }
          (total + it.quantity * prod.unit_price) rest

/-- The final `UPDATE order_transactions SET total_amount = ? WHERE id = ?`. -/
def setTotal (orders : List OrderTxn) (tid : Nat) (total : Int) : List OrderTxn :=
  orders.map (fun o => if o.id = tid then { o with total_amount := total } else o)

/-- The step-0 inline-customer INSERT of `create_order_transaction`
(issued before `BEGIN`): appends the normalised customer row under a
fresh id. -/
def insertCustomer (db : DB) (cd : CustomerInput) : DB :=
  { db with
      nextId := db.nextId + 1,
      customers := db.customers ++ [(db.nextId, mkCustomer cd)] }

/-- Step 2 of `create_order_transaction`: insert the order header under a
fresh id with a placeholder total of 0. -/
def insertOrderHeader (db : DB) (cid : Nat) (data : OrderData) : DB :=
  { db with
      nextId := db.nextId + 1,
      order_transactions :=
        db.order_transactions ++ [⟨db.nextId, cid, data.status_id, data.admin_id, 0⟩] }

/-- The transactional body of `create_order_transaction` (everything
between `BEGIN` and `COMMIT`): pre-check, admission decision, order
header insert, item loop, total update. -/
def runOrderTxn (db : DB) (cid : Nat) (data : OrderData) : Except OrderError (DB × Nat) :=
  if (lackingMaterials (precheckLines db [] data.items)).isEmpty then
    match applyItems data.admin_id db.nextId (insertOrderHeader db cid data) 0 data.items with
    | .error e => .error e
    | .ok (db2, total) =>
      .ok ({ db2 with order_transactions := setTotal db2.order_transactions db.nextId total },
        db.nextId)
  else
    .error (.insufficientStock (lackingMaterials (precheckLines db [] data.items)))

/-- `create_order_transaction` (backend/database.py:907).  Step 0 (the
customer resolution, including the inline-customer INSERT) runs *before*
the transaction begins, so its write is kept even when the transactional
body fails; every write of the body itself is rolled back on failure.
The returned `DB` is the observable post-state in both outcomes. -/
def create_order_transaction (db : DB) (data : OrderData) : DB × Except OrderError Nat :=
  match data.customer_id with
  | some cid =>
    match runOrderTxn db cid data with
    | .ok (db2, tid) => (db2, .ok tid)
    | .error e => (db, .error e)
  | none =>
    match data.customer with
    | none => (db, .error .invalidInput)
    | some cd =>
      match runOrderTxn (insertCustomer db cd) db.nextId data with
      | .ok (db2, tid) => (db2, .ok tid)
      | .error e => (insertCustomer db cd, .error e)

/-! ## Order status registry: `update_order_status` -/

/-- The three outcomes of `update_order_status` (the source returns an
error dict for the first two and a success dict for the third). -/
inductive StatusResult
  | statusCodeNotFound
  | txnNotFound
  | success
deriving DecidableEq, Repr

/-- `update_order_status` (backend/database.py:383): resolve the status
code, resolve the order id, then update that order's `status_id`
pointer.  No constraint relates the new status to the current one. -/
def update_order_status (db : DB) (transaction_id : Nat) (new_status_code : String) :
    DB × StatusResult :=
  match db.order_statuses.find? (fun p => p.2 = new_status_code) with
  | none => (db, .statusCodeNotFound)
  | some st =>
    match db.order_transactions.find? (fun o => o.id = transaction_id) with
    | none => (db, .txnNotFound)
    | some _ =>
      ({ db with
          order_transactions :=
            db.order_transactions.map (fun o =>
              if o.id = transaction_id then { o with status_id := st.1 } else o) },
        .success)

/-! ## Derived notions used by the claims -/

/-- The signed contribution of one ledger item: its quantity under the
direction of its parent transaction (first transaction row with the
matching id), zero for a dangling parent reference. -/
def entrySign (txns : List StockTxn) (it : StockTxnItem) : Int :=
  match txns.find? (fun t => t.id = it.stock_transaction_id) with
  | some t =>
    match t.direction with
    | .receipt => it.quantity
    | .consumption => -it.quantity
  | none => 0

/-- The signed ledger sum for one material over explicit table contents. -/
def ledgerSumL (txns : List StockTxn) (items : List StockTxnItem) (mid : Nat) : Int :=
  ((items.filter (fun it => it.material_id = mid)).map (entrySign txns)).sum

/-- The signed ledger sum for one material:
Σ RECEIPT quantities − Σ CONSUMPTION quantities over the rows referencing it. -/
def ledgerSum (db : DB) (mid : Nat) : Int :=
  ledgerSumL db.stock_transactions db.stock_transaction_items mid

/-- The ledger–counter invariant over explicit table contents: every
material's `current_stock` equals its signed ledger sum. -/
def invL (mats : List (Nat × Material)) (txns : List StockTxn)
    (items : List StockTxnItem) : Prop :=
  ∀ p ∈ mats, p.2.current_stock = ledgerSumL txns items p.1

/-- The ledger–counter invariant of the spec: every material's
`current_stock` equals its signed ledger sum. -/
def stockInvariant (db : DB) : Prop :=
  invL db.materials db.stock_transactions db.stock_transaction_items

/-- Well-formed id bookkeeping over explicit table contents: every ledger
row id sits below the generator, so freshly generated ids never collide. -/
def wfL (n : Nat) (txns : List StockTxn) (items : List StockTxnItem) : Prop :=
  (∀ t ∈ txns, t.id < n) ∧ (∀ it ∈ items, it.stock_transaction_id < n)

/-- Well-formed id bookkeeping of a datastore. -/
def wfIds (db : DB) : Prop :=
  wfL db.nextId db.stock_transactions db.stock_transaction_items

instance (db : DB) : Decidable (stockInvariant db) :=
  inferInstanceAs (Decidable (∀ p ∈ db.materials, p.2.current_stock = ledgerSum db p.1))

instance (db : DB) : Decidable (wfIds db) :=
  inferInstanceAs (Decidable ((∀ t ∈ db.stock_transactions, t.id < db.nextId) ∧
    (∀ it ∈ db.stock_transaction_items, it.stock_transaction_id < db.nextId)))

/-- Modelled from the spec (§4.3 step 2, the demand-aggregation rule the
admission check is claimed to implement): the aggregated demand for a
material is the sum of `used_quantity × ordered quantity` over **all**
order lines whose product BOM references it. -/
def aggregatedNeed (db : DB) (items : List OrderItemInput) (mid : Nat) : Int :=
  (items.map (fun it =>
    (((db.product_materials.filter
        (fun l => l.product_id = it.product_id ∧ l.material_id = mid)).map
      (fun l => l.used_quantity * it.quantity)).sum))).sum

/-- Helper: whether an `Except` is a success. -/
def exceptOk {ε α : Type} : Except ε α → Bool
  | .ok _ => true
  | .error _ => false

/-- Decidable equality on `Except`, for evaluating results on concrete inputs. -/
instance {ε α : Type} [DecidableEq ε] [DecidableEq α] : DecidableEq (Except ε α)
  | .ok a, .ok b =>
    if h : a = b then .isTrue (by rw [h])
    else .isFalse (by intro hh; cases hh; exact h rfl)
  | .ok _, .error _ => .isFalse (by intro h; cases h)
  | .error _, .ok _ => .isFalse (by intro h; cases h)
  | .error e, .error f =>
    if h : e = f then .isTrue (by rw [h])
    else .isFalse (by intro hh; cases hh; exact h rfl)

/-! ## C1 / C4: the demand-aggregation defect

The pre-check loop reassigns `material_requirements[material_id]` to a
fresh accumulator with `needed = 0` on *every* row before incrementing,
so a material referenced by several order lines retains only the demand
of the last line processed.  The concrete states below instantiate the
spec's own example. -/

/-- Material M of the spec's aggregation example: 4 units in stock. -/
def matM : Material :=
  { item_name := "M", unit_measurement := "kg", material_cost := 1,
    current_stock := 4, supplier_id := some 50 }

/-- State for the aggregation example: product 10 uses 2 M per unit,
product 20 uses 3 M per unit, M has 4 in stock. -/
def dbC1 : DB :=
  { nextId := 100, materials := [(1, matM)],
    product_materials := [⟨10, 1, 2, 1⟩, ⟨20, 1, 3, 1⟩],
    products := [(10, ⟨5⟩), (20, ⟨7⟩)],
    suppliers := [], stock_types := [], order_statuses := [], customers := [],
    order_transactions := [], order_items := [], stock_transactions := [],
    stock_transaction_items := [] }

/-- Order of one unit of each of products 10 and 20. -/
def dataC1 : OrderData :=
  { customer_id := some 7, customer := none, status_id := 1, admin_id := 2,
    items := [⟨10, 1⟩, ⟨20, 1⟩] }

/-- Material N for the deficit-report example: 1 unit in stock. -/
def matN : Material :=
  { item_name := "N", unit_measurement := "kg", material_cost := 1,
    current_stock := 1, supplier_id := some 50 }

/-- State for the deficit-report example: product 10 uses 2 M and 5 N per
unit, product 20 uses 3 M per unit; M has 4 in stock, N has 1. -/
def dbC4 : DB :=
  { nextId := 100, materials := [(1, matM), (2, matN)],
    product_materials := [⟨10, 1, 2, 1⟩, ⟨10, 2, 5, 1⟩, ⟨20, 1, 3, 1⟩],
    products := [(10, ⟨5⟩), (20, ⟨7⟩)],
    suppliers := [], stock_types := [], order_statuses := [], customers := [],
    order_transactions := [], order_items := [], stock_transactions := [],
    stock_transaction_items := [] }

/-- Order of one unit of each of products 10 and 20 (deficit example). -/
def dataC4 : OrderData :=
  { customer_id := some 7, customer := none, status_id := 1, admin_id := 2,
    items := [⟨10, 1⟩, ⟨20, 1⟩] }

/-- Material row used by the BOM witnesses (unit cost 9). -/
def matSteel : Material :=
  { item_name := "Steel", unit_measurement := "kg", material_cost := 9,
    current_stock := 0, supplier_id := none }

/-- State for the BOM witnesses: one material (id 1), no BOM rows. -/
def dbBom : DB :=
  { nextId := 0, materials := [(1, matSteel)], product_materials := [],
    products := [], suppliers := [], stock_types := [], order_statuses := [],
    customers := [], order_transactions := [], order_items := [],
    stock_transactions := [], stock_transaction_items := [] }

/-- First insert of the C5 witness: material 1, quantity 2, cost omitted. -/
def m1W : MaterialInput := ⟨1, 2, none⟩

/-- Second insert of the C5 witness: same material, different quantity and
an explicit cost — must be a no-op. -/
def m2W : MaterialInput := ⟨1, 7, some 3⟩

/-- First insert of the C10 witness: material 1 with explicit cost 4. -/
def m1X : MaterialInput := ⟨1, 2, some 4⟩

/-- Second insert of the C10 witness: material 99, which does not exist,
with cost omitted — forces the failing lookup. -/
def m2X : MaterialInput := ⟨99, 3, none⟩

/-- State for the C9 witness: two statuses, one order currently in
status 1. -/
def dbStatus : DB :=
  { nextId := 3, materials := [], product_materials := [], products := [],
    suppliers := [], stock_types := [],
    order_statuses := [(1, "ORD001"), (2, "ORD002")],
    customers := [],
    order_transactions := [⟨5, 9, 1, 4, 120⟩],
    order_items := [], stock_transactions := [], stock_transaction_items := [] }

/-- State for the C7 theorems: one material, id generator at 40. -/
def dbActor : DB :=
  { nextId := 40,
    materials := [(1, { item_name := "Oak", unit_measurement := "pc",
                        material_cost := 3, current_stock := 10, supplier_id := some 6 })],
    product_materials := [], products := [], suppliers := [(6, ⟨"A", "B", "Acme", "1", "a", "c"⟩)],
    stock_types := [("STT001", "STT001")], order_statuses := [], customers := [],
    order_transactions := [], order_items := [], stock_transactions := [],
    stock_transaction_items := [] }

/-- Receiving payload with BOTH an admin and an employee actor. -/
def dataBothActors : StockData :=
  { supplier_id := some 6, supplier := none, stock_type_id := some "STT001",
    admin_id := some 1, employee_id := some 2, items := [⟨1, 5⟩] }

/-- Receiving payload with NO actor. -/
def dataNoActor : StockData :=
  { supplier_id := some 6, supplier := none, stock_type_id := some "STT001",
    admin_id := none, employee_id := none, items := [⟨1, 5⟩] }

/-! ## C8: absence of a positive-quantity guard -/

/-- Material for the C8 consumption demonstration (10 in stock). -/
def matQ3 : Material :=
  { item_name := "Pine", unit_measurement := "pc", material_cost := 2,
    current_stock := 10, supplier_id := some 6 }

/-- State for the C8 consumption demonstration: product 30 uses 2 of
material 3 per unit. -/
def dbQtyOrder : DB :=
  { nextId := 60, materials := [(3, matQ3)],
    product_materials := [⟨30, 3, 2, 1⟩], products := [(30, ⟨8⟩)],
    suppliers := [(6, ⟨"A", "B", "Acme", "1", "a", "c"⟩)], stock_types := [],
    order_statuses := [], customers := [], order_transactions := [],
    order_items := [], stock_transactions := [], stock_transaction_items := [] }

/-- Order of −3 units of product 30. -/
def dataQtyOrder : OrderData :=
  { customer_id := some 9, customer := none, status_id := 1, admin_id := 2,
    items := [⟨30, -3⟩] }

/-- State for the C8 receiving counterexample. -/
def dbQtyRecv : DB :=
  { nextId := 70,
    materials := [(1, { item_name := "Oak", unit_measurement := "pc",
                        material_cost := 3, current_stock := 10, supplier_id := some 6 })],
    product_materials := [], products := [],
    suppliers := [(6, ⟨"A", "B", "Acme", "1", "a", "c"⟩)],
    stock_types := [("STT001", "STT001")], order_statuses := [], customers := [],
    order_transactions := [], order_items := [], stock_transactions := [],
    stock_transaction_items := [] }

/-- Receiving payload with a NEGATIVE line quantity. -/
def dataQtyRecv : StockData :=
  { supplier_id := some 6, supplier := none, stock_type_id := some "STT001",
    admin_id := some 1, employee_id := none, items := [⟨1, -5⟩] }

/-- State for the C6 theorems: product 10 exists but has no BOM rows. -/
def dbNoBom : DB :=
  { nextId := 100, materials := [], product_materials := [],
    products := [(10, ⟨5⟩)], suppliers := [], stock_types := [],
    order_statuses := [], customers := [], order_transactions := [],
    order_items := [], stock_transactions := [], stock_transaction_items := [] }

/-- Order of 2 units of the BOM-less product 10. -/
def dataNoBom : OrderData :=
  { customer_id := some 7, customer := none, status_id := 1, admin_id := 2,
    items := [⟨10, 2⟩] }

/-- Material for the C2 example: nothing in stock. -/
def matEmpty : Material :=
  { item_name := "M", unit_measurement := "kg", material_cost := 1,
    current_stock := 0, supplier_id := some 50 }

/-- State for the C2 example: product 10 needs 5 of material 1, which has
0 in stock, so any order for it is rejected at the admission check. -/
def dbCust : DB :=
  { nextId := 100, materials := [(1, matEmpty)],
    product_materials := [⟨10, 1, 5, 1⟩], products := [(10, ⟨5⟩)],
    suppliers := [], stock_types := [], order_statuses := [], customers := [],
    order_transactions := [], order_items := [], stock_transactions := [],
    stock_transaction_items := [] }

/-- Inline customer payload of the C2 example. -/
def cdCust : CustomerInput :=
  { firstname := "ana", lastname := "cruz", contact_number := "123",
    email := "a@b.c", address := "manila" }

/-- Failing order with an inline customer. -/
def dataCust : OrderData :=
  { customer_id := none, customer := some cdCust, status_id := 1, admin_id := 2,
    items := [⟨10, 1⟩] }

/-- Material for the C3 witness: 10 in stock, backed by one receipt
ledger row of 10. -/
def matInv : Material :=
  { item_name := "Ash", unit_measurement := "kg", material_cost := 2,
    current_stock := 10, supplier_id := some 6 }

/-- State for the C3 witness: the invariant holds (stock 10 = one receipt
of 10) and ids are well formed. -/
def dbInv : DB :=
  { nextId := 1, materials := [(1, matInv)],
    product_materials := [⟨30, 1, 2, 2⟩], products := [(30, ⟨9⟩)],
    suppliers := [(6, ⟨"A", "B", "Acme", "1", "a", "c"⟩)],
    stock_types := [("STT001", "STT001")], order_statuses := [], customers := [],
    order_transactions := [], order_items := [],
    stock_transactions := [⟨0, .receipt, "STT001", 6, some 1, none⟩],
    stock_transaction_items := [⟨0, 1, 10⟩] }

/-- Receiving payload for the C3 witness. -/
def sdataInv : StockData :=
  { supplier_id := some 6, supplier := none, stock_type_id := some "STT001",
    admin_id := some 1, employee_id := none, items := [⟨1, 3⟩] }

/-- Order payload for the C3 witness (consumes 2 × 2 = 4 of material 1). -/
def odataInv : OrderData :=
  { customer_id := some 9, customer := none, status_id := 1, admin_id := 2,
    items := [⟨30, 2⟩] }

/-- The successful result of the C3 witness receiving call. -/
def resInv : DB × Nat :=
  match stock_materials dbInv sdataInv with
  | .ok r => r
  | .error _ => (dbInv, 0)


/-- C1: the claim says the admission check sums the per-material demand
over all order lines, so this order (aggregated need 5 for material 1,
4 available) must be rejected.  The code instead resets the accumulator
per line, keeps only the last line's demand (3 ≤ 4), admits the order,
and drives `current_stock` to −1. -/
theorem create_order_admits_underaggregated_order :
    aggregatedNeed dbC1 dataC1.items 1 = 5 ∧
    (findMaterial dbC1 1).map (·.current_stock) = some 4 ∧
    (create_order_transaction dbC1 dataC1).2 = .ok 100 ∧
    (findMaterial (create_order_transaction dbC1 dataC1).1 1).map (·.current_stock) =
      some (-1) := by
  exact ⟨by decide, by decide, by decide, by decide⟩

/-- C4: the claim says an insufficient-stock rejection lists every
material whose *aggregated* need exceeds its availability.  Here material
1 (M) has aggregated need 5 > 4 available and material 2 (N) has need
5 > 1, yet the rejection lists only N: M's tracked need was reset to the
last line's 3 ≤ 4 by the aggregation defect, so its deficit is dropped
from the report. -/
theorem create_order_deficit_report_incomplete :
    aggregatedNeed dbC4 dataC4.items 1 = 5 ∧
    (findMaterial dbC4 1).map (·.current_stock) = some 4 ∧
    (create_order_transaction dbC4 dataC4).2 =
      .error (.insufficientStock [⟨5, 1, "N", "kg"⟩]) := by
  exact ⟨by decide, by decide, by decide⟩

/-! ## C5 / C10: BOM insertion -/

/-- C5: a fresh `(product, material)` BOM insert with `unit_cost` omitted
copies the material's current `material_cost` into the new row
(point-in-time); re-adding the same pair — with any quantity or cost — is
a complete no-op, leaving exactly the one row written by the first
insert. -/
theorem add_product_materials_skip_idempotent
    (db : DB) (pid : Nat) (m1 m2 : MaterialInput) (mat : Material)
    (hpair : m2.material_id = m1.material_id)
    (hfresh : ∀ l ∈ db.product_materials,
      ¬(l.product_id = pid ∧ l.material_id = m1.material_id))
    (hcost : m1.unit_cost = none)
    (hmat : findMaterial db m1.material_id = some mat) :
    (add_product_materials db pid [m1]).2 = .ok () ∧
    ((add_product_materials db pid [m1]).1.product_materials =
      db.product_materials ++
        [⟨pid, m1.material_id, m1.used_quantity, mat.material_cost⟩]) ∧
    ((add_product_materials db pid [m1]).1.product_materials.filter
        (fun l => l.product_id = pid ∧ l.material_id = m1.material_id) =
      [⟨pid, m1.material_id, m1.used_quantity, mat.material_cost⟩]) ∧
    add_product_materials (add_product_materials db pid [m1]).1 pid [m2] =
      ((add_product_materials db pid [m1]).1, .ok ()) := by
  have hex1 : ¬ ∃ x ∈ db.product_materials,
      x.product_id = pid ∧ x.material_id = m1.material_id := by
    rintro ⟨x, hx, hpx, hmx⟩
    exact hfresh x hx ⟨hpx, hmx⟩
  have hfilter : db.product_materials.filter
      (fun l => l.product_id = pid ∧ l.material_id = m1.material_id) = [] := by
    rw [List.filter_eq_nil_iff]
    intro l hl
    simpa using hfresh l hl
  have h1 : add_product_materials db pid [m1] =
      ({ db with product_materials := db.product_materials ++
          [⟨pid, m1.material_id, m1.used_quantity, mat.material_cost⟩] }, .ok ()) := by
    simp [add_product_materials, addBomLoop, hex1, hcost, hmat]
  have hpair' : m1.material_id = m2.material_id := hpair.symm
  refine ⟨by rw [h1], by rw [h1], ?_, ?_⟩
  · rw [h1]
    show (db.product_materials ++ _).filter _ = _
    rw [List.filter_append, hfilter, List.nil_append]
    simp
  · rw [h1]
    simp [add_product_materials, addBomLoop, hpair']

/-- Witness for C5 at a concrete state. -/
theorem add_product_materials_skip_idempotent_witness :
    (m2W.material_id = m1W.material_id) ∧
    (∀ l ∈ dbBom.product_materials,
      ¬(l.product_id = 10 ∧ l.material_id = m1W.material_id)) ∧
    m1W.unit_cost = none ∧
    findMaterial dbBom m1W.material_id = some matSteel ∧
    ((add_product_materials dbBom 10 [m1W]).2 = .ok () ∧
      ((add_product_materials dbBom 10 [m1W]).1.product_materials =
        dbBom.product_materials ++
          [⟨10, m1W.material_id, m1W.used_quantity, matSteel.material_cost⟩]) ∧
      ((add_product_materials dbBom 10 [m1W]).1.product_materials.filter
          (fun l => l.product_id = 10 ∧ l.material_id = m1W.material_id) =
        [⟨10, m1W.material_id, m1W.used_quantity, matSteel.material_cost⟩]) ∧
      add_product_materials (add_product_materials dbBom 10 [m1W]).1 10 [m2W] =
        ((add_product_materials dbBom 10 [m1W]).1, .ok ())) :=
  ⟨by decide, by decide, by decide, by decide,
    add_product_materials_skip_idempotent dbBom 10 m1W m2W matSteel
      (by decide) (by decide) (by decide) (by decide)⟩

/-- C10: a two-material batch where the second material's default-cost
lookup fails (its id does not resolve) errors, but the first material's
freshly inserted BOM row is kept — the state is not restored to what it
was before the call. -/
theorem add_product_materials_partial_on_failure
    (db : DB) (pid : Nat) (m1 m2 : MaterialInput) (c1 : Int)
    (h1 : ∀ l ∈ db.product_materials,
      ¬(l.product_id = pid ∧ l.material_id = m1.material_id))
    (hc1 : m1.unit_cost = some c1)
    (hne : m2.material_id ≠ m1.material_id)
    (h2 : ∀ l ∈ db.product_materials,
      ¬(l.product_id = pid ∧ l.material_id = m2.material_id))
    (hc2 : m2.unit_cost = none)
    (hm2 : findMaterial db m2.material_id = none) :
    add_product_materials db pid [m1, m2] =
      ({ db with product_materials :=
          db.product_materials ++ [⟨pid, m1.material_id, m1.used_quantity, c1⟩] },
        .error (.materialNotFound m2.material_id)) := by
  have hex1 : ¬ ∃ x ∈ db.product_materials,
      x.product_id = pid ∧ x.material_id = m1.material_id := by
    rintro ⟨x, hx, hpx, hmx⟩
    exact h1 x hx ⟨hpx, hmx⟩
  have hex2 : ¬ ∃ x ∈ db.product_materials,
      x.product_id = pid ∧ x.material_id = m2.material_id := by
    rintro ⟨x, hx, hpx, hmx⟩
    exact h2 x hx ⟨hpx, hmx⟩
  have hne' : m1.material_id ≠ m2.material_id := fun h => hne h.symm
  have hfind : db.materials.find? (fun p => p.1 = m2.material_id) = none := by
    simpa [findMaterial] using hm2
  simp [add_product_materials, addBomLoop, findMaterial, hex1, hc1, hex2, hne', hc2, hfind]

/-- Witness for C10 at a concrete state. -/
theorem add_product_materials_partial_on_failure_witness :
    (∀ l ∈ dbBom.product_materials,
      ¬(l.product_id = 10 ∧ l.material_id = m1X.material_id)) ∧
    m1X.unit_cost = some 4 ∧
    m2X.material_id ≠ m1X.material_id ∧
    (∀ l ∈ dbBom.product_materials,
      ¬(l.product_id = 10 ∧ l.material_id = m2X.material_id)) ∧
    m2X.unit_cost = none ∧
    findMaterial dbBom m2X.material_id = none ∧
    add_product_materials dbBom 10 [m1X, m2X] =
      ({ dbBom with product_materials :=
          dbBom.product_materials ++ [⟨10, m1X.material_id, m1X.used_quantity, 4⟩] },
        .error (.materialNotFound m2X.material_id)) :=
  ⟨by decide, by decide, by decide, by decide, by decide, by decide,
    add_product_materials_partial_on_failure dbBom 10 m1X m2X 4
      (by decide) (by decide) (by decide) (by decide) (by decide) (by decide)⟩

/-! ## C9: the status-transition contract -/

/-- C9: `update_order_status` fails (NotFound-style error result, state
unchanged) when the status code or the order id does not resolve; on
success it rewrites only the matching order's `status_id` pointer — every
other table and every other order field is untouched — and the success
outcome does not depend on the order's current status, so any existing
status code may follow any other (no transition graph). -/
theorem update_order_status_contract (db : DB) (tid : Nat) (code : String) :
    (db.order_statuses.find? (fun p => p.2 = code) = none →
      update_order_status db tid code = (db, .statusCodeNotFound)) ∧
    (∀ st, db.order_statuses.find? (fun p => p.2 = code) = some st →
      db.order_transactions.find? (fun o => o.id = tid) = none →
      update_order_status db tid code = (db, .txnNotFound)) ∧
    (∀ st o, db.order_statuses.find? (fun p => p.2 = code) = some st →
      db.order_transactions.find? (fun o => o.id = tid) = some o →
      (update_order_status db tid code).2 = .success ∧
      (update_order_status db tid code).1.nextId = db.nextId ∧
      (update_order_status db tid code).1.materials = db.materials ∧
      (update_order_status db tid code).1.product_materials = db.product_materials ∧
      (update_order_status db tid code).1.products = db.products ∧
      (update_order_status db tid code).1.suppliers = db.suppliers ∧
      (update_order_status db tid code).1.customers = db.customers ∧
      (update_order_status db tid code).1.order_items = db.order_items ∧
      (update_order_status db tid code).1.stock_transactions = db.stock_transactions ∧
      (update_order_status db tid code).1.stock_transaction_items =
        db.stock_transaction_items ∧
      (update_order_status db tid code).1.order_transactions =
        db.order_transactions.map (fun x =>
          if x.id = tid then { x with status_id := st.1 } else x)) := by
  refine ⟨?_, ?_, ?_⟩
  · intro h
    simp [update_order_status, h]
  · intro st hst htx
    simp [update_order_status, hst, htx]
  · intro st o hst htx
    simp [update_order_status, hst, htx]

/-- Witness for C9: transitioning order 5 to ORD002 succeeds and rewrites
only the status pointer. -/
theorem update_order_status_contract_witness :
    (dbStatus.order_statuses.find? (fun p => p.2 = "ORD002") = some (2, "ORD002")) ∧
    (dbStatus.order_transactions.find? (fun o => o.id = 5) = some ⟨5, 9, 1, 4, 120⟩) ∧
    ((update_order_status dbStatus 5 "ORD002").2 = .success ∧
      (update_order_status dbStatus 5 "ORD002").1.nextId = dbStatus.nextId ∧
      (update_order_status dbStatus 5 "ORD002").1.materials = dbStatus.materials ∧
      (update_order_status dbStatus 5 "ORD002").1.product_materials =
        dbStatus.product_materials ∧
      (update_order_status dbStatus 5 "ORD002").1.products = dbStatus.products ∧
      (update_order_status dbStatus 5 "ORD002").1.suppliers = dbStatus.suppliers ∧
      (update_order_status dbStatus 5 "ORD002").1.customers = dbStatus.customers ∧
      (update_order_status dbStatus 5 "ORD002").1.order_items = dbStatus.order_items ∧
      (update_order_status dbStatus 5 "ORD002").1.stock_transactions =
        dbStatus.stock_transactions ∧
      (update_order_status dbStatus 5 "ORD002").1.stock_transaction_items =
        dbStatus.stock_transaction_items ∧
      (update_order_status dbStatus 5 "ORD002").1.order_transactions =
        dbStatus.order_transactions.map (fun x =>
          if x.id = 5 then { x with status_id := 2 } else x)) :=
  ⟨by decide, by decide,
    (update_order_status_contract dbStatus 5 "ORD002").2.2 (2, "ORD002") ⟨5, 9, 1, 4, 120⟩
      (by decide) (by decide)⟩

/-! ## C7: actor validation on receiving -/

/-- C7 (amended): `stock_materials` requires **at least** one of
`admin_id`/`employee_id`: with neither present the call errors (and, the
body being transactional, writes nothing — an error outcome returns no
state); with both present — and supplier and stock type supplied — the
call is accepted and records both actors on the transaction row. -/
theorem stock_materials_actor_check (db : DB) (data : StockData) :
    (data.admin_id = none → data.employee_id = none →
      exceptOk (stock_materials db data) = false) ∧
    (∀ sid stid a e, data.supplier_id = some sid → data.stock_type_id = some stid →
      data.admin_id = some a → data.employee_id = some e →
      stock_materials db data =
        .ok (stockItemsLoop db.nextId
              { db with
                  nextId := db.nextId + 1,
                  stock_transactions := db.stock_transactions ++
                    [⟨db.nextId, .receipt, stid, sid, some a, some e⟩] }
              data.items,
            db.nextId)) := by
  constructor
  · intro ha he
    unfold stock_materials
    cases hs : resolveSupplier db data with
    | error e => rfl
    | ok p =>
      obtain ⟨db0, sid⟩ := p
      cases ht : resolveStockType db0 data with
      | error e => simp [ht, exceptOk]
      | ok stid => simp [ht, ha, he, exceptOk]
  · intro sid stid a e hs ht ha he
    simp [stock_materials, resolveSupplier, resolveStockType, insertStockTxn, hs, ht, ha, he]

/-- Counterexample to C7 as stated: a call with BOTH `admin_id` and
`employee_id` present is not rejected — it succeeds and writes a ledger
row carrying both actors, and the material's stock is incremented. -/
theorem stock_materials_both_actors_accepted :
    dataBothActors.admin_id = some 1 ∧
    dataBothActors.employee_id = some 2 ∧
    (stock_materials dbActor dataBothActors).toOption.map
        (fun r => r.1.stock_transactions) =
      some [⟨40, .receipt, "STT001", 6, some 1, some 2⟩] ∧
    (stock_materials dbActor dataBothActors).toOption.map
        (fun r => (findMaterial r.1 1).map (·.current_stock)) = some (some 15) := by
  exact ⟨by decide, by decide, by decide, by decide⟩

/-- Witness for C7 at concrete states: the no-actor call errors, the
both-actors call succeeds with both actors recorded. -/
theorem stock_materials_actor_check_witness :
    (exceptOk (stock_materials dbActor dataNoActor) = false) ∧
    (stock_materials dbActor dataBothActors =
      .ok (stockItemsLoop dbActor.nextId
            { dbActor with
                nextId := dbActor.nextId + 1,
                stock_transactions := dbActor.stock_transactions ++
                  [⟨dbActor.nextId, .receipt, "STT001", 6, some 1, some 2⟩] }
            dataBothActors.items,
          dbActor.nextId)) :=
  ⟨(stock_materials_actor_check dbActor dataNoActor).1 (by decide) (by decide),
    (stock_materials_actor_check dbActor dataBothActors).2 6 "STT001" 1 2
      (by decide) (by decide) (by decide) (by decide)⟩

/-- C8 (amended): no quantity validation exists in either movement path.
Receiving records any line quantity — zero or negative included — as-is
in the ledger and adds it to `current_stock`; order consumption likewise
records `used_quantity × quantity` without a sign check and subtracts it
(shown on a concrete order of −3 units, which *increases* stock). -/
theorem stock_movements_accept_nonpositive_quantities :
    (∀ (db : DB) (data : StockData) (sid : Nat) (stid : String) (a mid : Nat) (q : Int),
      data.supplier_id = some sid → data.stock_type_id = some stid →
      data.admin_id = some a → data.items = [⟨mid, q⟩] →
      stock_materials db data =
        .ok ({ db with
                nextId := db.nextId + 1,
                stock_transactions := db.stock_transactions ++
                  [⟨db.nextId, .receipt, stid, sid, some a, data.employee_id⟩],
                stock_transaction_items :=
                  db.stock_transaction_items ++ [⟨db.nextId, mid, q⟩],
                materials := updateStock db.materials mid q },
              db.nextId)) ∧
    ((create_order_transaction dbQtyOrder dataQtyOrder).2 = .ok 60 ∧
      (create_order_transaction dbQtyOrder dataQtyOrder).1.stock_transaction_items =
        [⟨61, 3, -6⟩] ∧
      (findMaterial (create_order_transaction dbQtyOrder dataQtyOrder).1 3).map
          (·.current_stock) = some 16) := by
  constructor
  · intro db data sid stid a mid q hs ht ha hi
    cases he : data.employee_id <;>
      simp [stock_materials, resolveSupplier, resolveStockType, insertStockTxn,
        stockItemsLoop, receiveStep, hs, ht, ha, he, hi]
  · exact ⟨by decide, by decide, by decide⟩

/-- Counterexample to C8 as stated: a receiving line with quantity −5 is
not rejected with InvalidQuantity — it succeeds, writes the ledger row
with quantity −5, and *decrements* `current_stock` from 10 to 5. -/
theorem stock_materials_negative_quantity_accepted :
    (stock_materials dbQtyRecv dataQtyRecv).toOption.map
        (fun r => r.1.stock_transaction_items) = some [⟨70, 1, -5⟩] ∧
    (stock_materials dbQtyRecv dataQtyRecv).toOption.map
        (fun r => (findMaterial r.1 1).map (·.current_stock)) = some (some 5) := by
  exact ⟨by decide, by decide⟩

/-- Witness for C8 at the concrete negative-quantity receiving call. -/
theorem stock_movements_accept_nonpositive_quantities_witness :
    stock_materials dbQtyRecv dataQtyRecv =
      .ok ({ dbQtyRecv with
              nextId := dbQtyRecv.nextId + 1,
              stock_transactions := dbQtyRecv.stock_transactions ++
                [⟨dbQtyRecv.nextId, .receipt, "STT001", 6, some 1, none⟩],
              stock_transaction_items :=
                dbQtyRecv.stock_transaction_items ++ [⟨dbQtyRecv.nextId, 1, -5⟩],
              materials := updateStock dbQtyRecv.materials 1 (-5) },
            dbQtyRecv.nextId) :=
  (stock_movements_accept_nonpositive_quantities.1 dbQtyRecv dataQtyRecv 6 "STT001" 1 1 (-5)
    (by decide) (by decide) (by decide) (by decide))

/-! ## C6: products with no BOM lines -/

/-- C6 (amended): for a product with no BOM rows,
`get_product_materials_by_product_id` returns the empty list (it has no
failure outcome), and an order line for such a product — provided the
product row itself exists — is admitted and fulfilled with zero material
consumption: no ledger rows are written and no stock changes. -/
theorem empty_bom_order_admitted
    (db : DB) (data : OrderData) (pid cid : Nat) (q : Int) (prod : Product)
    (hno : ∀ l ∈ db.product_materials, l.product_id ≠ pid)
    (hitems : data.items = [⟨pid, q⟩])
    (hcust : data.customer_id = some cid)
    (hprod : findProduct db pid = some prod) :
    get_product_materials_by_product_id db pid = [] ∧
    (create_order_transaction db data).2 = .ok db.nextId ∧
    (create_order_transaction db data).1.materials = db.materials ∧
    (create_order_transaction db data).1.stock_transactions = db.stock_transactions ∧
    (create_order_transaction db data).1.stock_transaction_items =
      db.stock_transaction_items := by
  have hfil : db.product_materials.filter (fun l => l.product_id = pid) = [] := by
    rw [List.filter_eq_nil_iff]
    intro l hl
    simpa using hno l hl
  rcases hfp : db.products.find? (fun p => p.1 = pid) with _ | pr
  · rw [findProduct, hfp] at hprod
    cases hprod
  · have hpre : precheckLines db [] [⟨pid, q⟩] = [] := by
      simp [precheckLines, precheckRows, hfil]
    refine ⟨by simp [get_product_materials_by_product_id, hfil], ?_, ?_, ?_, ?_⟩ <;>
      simp [create_order_transaction, hcust, runOrderTxn, insertOrderHeader, hpre,
        lackingMaterials, hitems, applyItems, applyMaterials, findProduct, hfp, hfil,
        setTotal]

/-- Counterexample to C6 as stated: product 10 has no BOM lines, yet
`get_product_materials_by_product_id` returns the empty list (no
NotFound failure exists) and the order IS fulfilled — admitted with an
order line and zero material consumption — rather than rejected. -/
theorem bomless_product_order_fulfilled :
    dbNoBom.product_materials = [] ∧
    get_product_materials_by_product_id dbNoBom 10 = [] ∧
    (create_order_transaction dbNoBom dataNoBom).2 = .ok 100 ∧
    (create_order_transaction dbNoBom dataNoBom).1.stock_transaction_items = [] ∧
    (create_order_transaction dbNoBom dataNoBom).1.order_items = [⟨100, 10, 2, 5⟩] := by
  exact ⟨by decide, by decide, by decide, by decide, by decide⟩

/-- Witness for C6 at the concrete BOM-less state. -/
theorem empty_bom_order_admitted_witness :
    (∀ l ∈ dbNoBom.product_materials, l.product_id ≠ 10) ∧
    dataNoBom.items = [⟨10, 2⟩] ∧
    dataNoBom.customer_id = some 7 ∧
    findProduct dbNoBom 10 = some ⟨5⟩ ∧
    (get_product_materials_by_product_id dbNoBom 10 = [] ∧
      (create_order_transaction dbNoBom dataNoBom).2 = .ok dbNoBom.nextId ∧
      (create_order_transaction dbNoBom dataNoBom).1.materials = dbNoBom.materials ∧
      (create_order_transaction dbNoBom dataNoBom).1.stock_transactions =
        dbNoBom.stock_transactions ∧
      (create_order_transaction dbNoBom dataNoBom).1.stock_transaction_items =
        dbNoBom.stock_transaction_items) :=
  ⟨by decide, by decide, by decide, by decide,
    empty_bom_order_admitted dbNoBom dataNoBom 10 7 2 ⟨5⟩
      (by decide) (by decide) (by decide) (by decide)⟩

/-! ## C2: rollback scope of `create_order_transaction` -/

/-- C2 (amended): when `create_order_transaction` fails, every write of
the transactional body — ledger rows, stock decrements, order header and
order lines — is rolled back, but the inline-customer INSERT is issued
*before* the transaction begins, so the freshly created customer row
persists even on failure; every other table is exactly as before the
call. -/
theorem create_order_rollback_scope (db : DB) (data : OrderData) (e : OrderError)
    (h : (create_order_transaction db data).2 = .error e) :
    (create_order_transaction db data).1.materials = db.materials ∧
    (create_order_transaction db data).1.product_materials = db.product_materials ∧
    (create_order_transaction db data).1.products = db.products ∧
    (create_order_transaction db data).1.suppliers = db.suppliers ∧
    (create_order_transaction db data).1.order_transactions = db.order_transactions ∧
    (create_order_transaction db data).1.order_items = db.order_items ∧
    (create_order_transaction db data).1.stock_transactions = db.stock_transactions ∧
    (create_order_transaction db data).1.stock_transaction_items =
      db.stock_transaction_items ∧
    ((create_order_transaction db data).1.customers = db.customers ∨
      (data.customer_id = none ∧ ∃ cd, data.customer = some cd ∧
        (create_order_transaction db data).1.customers =
          db.customers ++ [(db.nextId, mkCustomer cd)])) := by
  unfold create_order_transaction at h ⊢
  cases hcid : data.customer_id with
  | some cid =>
    rw [hcid] at h
    dsimp only at h ⊢
    cases hr : runOrderTxn db cid data with
    | ok p =>
      obtain ⟨db2, tid⟩ := p
      rw [hr] at h
      simp at h
    | error e2 =>
      exact ⟨rfl, rfl, rfl, rfl, rfl, rfl, rfl, rfl, Or.inl rfl⟩
  | none =>
    rw [hcid] at h
    cases hcd : data.customer with
    | none =>
      dsimp only at h ⊢
      exact ⟨rfl, rfl, rfl, rfl, rfl, rfl, rfl, rfl, Or.inl rfl⟩
    | some cd =>
      rw [hcd] at h
      dsimp only at h ⊢
      cases hr : runOrderTxn (insertCustomer db cd) db.nextId data with
      | ok p =>
        obtain ⟨db2, tid⟩ := p
        rw [hr] at h
        simp at h
      | error e2 =>
        exact ⟨rfl, rfl, rfl, rfl, rfl, rfl, rfl, rfl,
          Or.inr ⟨rfl, cd, rfl, rfl⟩⟩

/-- Counterexample to C2 as stated: this call fails (insufficient stock),
yet the customer record created for the inline customer is NOT rolled
back — it persists in the post-state, because the INSERT ran before
`BEGIN`. -/
theorem create_order_inline_customer_persists :
    dbCust.customers = [] ∧
    (create_order_transaction dbCust dataCust).2 =
      .error (.insufficientStock [⟨5, 0, "M", "kg"⟩]) ∧
    (create_order_transaction dbCust dataCust).1.customers =
      [(100, mkCustomer cdCust)] := by
  exact ⟨by decide, by decide, by decide⟩

/-- Witness for C2 at the concrete failing call. -/
theorem create_order_rollback_scope_witness :
    ((create_order_transaction dbCust dataCust).2 =
      .error (.insufficientStock [⟨5, 0, "M", "kg"⟩])) ∧
    ((create_order_transaction dbCust dataCust).1.materials = dbCust.materials ∧
      (create_order_transaction dbCust dataCust).1.product_materials =
        dbCust.product_materials ∧
      (create_order_transaction dbCust dataCust).1.products = dbCust.products ∧
      (create_order_transaction dbCust dataCust).1.suppliers = dbCust.suppliers ∧
      (create_order_transaction dbCust dataCust).1.order_transactions =
        dbCust.order_transactions ∧
      (create_order_transaction dbCust dataCust).1.order_items = dbCust.order_items ∧
      (create_order_transaction dbCust dataCust).1.stock_transactions =
        dbCust.stock_transactions ∧
      (create_order_transaction dbCust dataCust).1.stock_transaction_items =
        dbCust.stock_transaction_items ∧
      ((create_order_transaction dbCust dataCust).1.customers = dbCust.customers ∨
        (dataCust.customer_id = none ∧ ∃ cd, dataCust.customer = some cd ∧
          (create_order_transaction dbCust dataCust).1.customers =
            dbCust.customers ++ [(dbCust.nextId, mkCustomer cd)]))) :=
  ⟨by decide,
    create_order_rollback_scope dbCust dataCust (.insufficientStock [⟨5, 0, "M", "kg"⟩])
      (by decide)⟩

/-! ## C3: the ledger–counter invariant -/

theorem find?_append_sing_none (l : List StockTxn) (t : StockTxn) (p : StockTxn → Bool)
    (hp : p t = false) : (l ++ [t]).find? p = l.find? p := by
  induction l with
  | nil => simp [List.find?, hp]
  | cons a as ih =>
    cases hpa : p a with
    | true => simp [List.find?, hpa]
    | false => simp [List.find?, hpa, ih]

theorem find?_append_sing_self (l : List StockTxn) (t : StockTxn) (n : Nat)
    (ht : t.id = n) (h : ∀ x ∈ l, x.id ≠ n) :
    (l ++ [t]).find? (fun x => x.id = n) = some t := by
  induction l with
  | nil => simp [List.find?, ht]
  | cons a as ih =>
    have ha : (decide (a.id = n)) = false := decide_eq_false (h a (by simp))
    simp only [List.cons_append, List.find?, ha]
    exact ih (fun x hx => h x (by simp [hx]))

theorem entrySign_append_fresh (txns : List StockTxn) (t : StockTxn) (it : StockTxnItem)
    (h : it.stock_transaction_id ≠ t.id) :
    entrySign (txns ++ [t]) it = entrySign txns it := by
  unfold entrySign
  rw [find?_append_sing_none]
  exact decide_eq_false (fun hc => h hc.symm)

theorem ledgerSumL_append_txn (txns : List StockTxn) (t : StockTxn)
    (items : List StockTxnItem) (mid : Nat)
    (h : ∀ it ∈ items, it.stock_transaction_id ≠ t.id) :
    ledgerSumL (txns ++ [t]) items mid = ledgerSumL txns items mid := by
  unfold ledgerSumL
  congr 1
  refine List.map_congr_left ?_
  intro it hit
  exact entrySign_append_fresh txns t it (h it (List.mem_of_mem_filter hit))

theorem ledgerSumL_append_item (txns : List StockTxn) (items : List StockTxnItem)
    (it : StockTxnItem) (mid : Nat) :
    ledgerSumL txns (items ++ [it]) mid =
      ledgerSumL txns items mid +
        (if it.material_id = mid then entrySign txns it else 0) := by
  unfold ledgerSumL
  rw [List.filter_append]
  by_cases h : it.material_id = mid
  · simp [h]
  · simp [h]

theorem entrySign_eq_of_find (txns : List StockTxn) (t : StockTxn) (tid mid : Nat) (q : Int)
    (hfind : txns.find? (fun x => x.id = tid) = some t) :
    entrySign txns ⟨tid, mid, q⟩ =
      match t.direction with
      | .receipt => q
      | .consumption => -q := by
  unfold entrySign
  dsimp only
  rw [hfind]

theorem invL_append_txn (mats : List (Nat × Material)) (txns : List StockTxn)
    (items : List StockTxnItem) (t : StockTxn)
    (h : ∀ it ∈ items, it.stock_transaction_id ≠ t.id)
    (hinv : invL mats txns items) : invL mats (txns ++ [t]) items := by
  intro p hp
  rw [ledgerSumL_append_txn txns t items p.1 h]
  exact hinv p hp

theorem invL_insert (mats : List (Nat × Material)) (txns : List StockTxn)
    (items : List StockTxnItem) (tid mid : Nat) (q : Int)
    (hinv : invL mats txns items) :
    invL (updateStock mats mid (entrySign txns ⟨tid, mid, q⟩)) txns
      (items ++ [⟨tid, mid, q⟩]) := by
  intro p hp
  unfold updateStock at hp
  rcases List.mem_map.1 hp with ⟨y, hy, hmap⟩
  rw [ledgerSumL_append_item]
  by_cases hym : y.1 = mid
  · rw [if_pos hym] at hmap
    subst hmap
    dsimp only
    rw [if_pos hym.symm]
    rw [hinv y hy]
  · rw [if_neg hym] at hmap
    subst hmap
    rw [if_neg (fun hc => hym hc.symm), add_zero]
    exact hinv y hy

theorem wfL_mono (n m : Nat) (txns : List StockTxn) (items : List StockTxnItem)
    (h : n ≤ m) (hwf : wfL n txns items) : wfL m txns items :=
  ⟨fun t ht => lt_of_lt_of_le (hwf.1 t ht) h,
   fun it hit => lt_of_lt_of_le (hwf.2 it hit) h⟩

theorem stockInvariant_receiveStep (db : DB) (tid : Nat) (t : StockTxn)
    (it : StockItemInput)
    (hfind : db.stock_transactions.find? (fun x => x.id = tid) = some t)
    (ht : t.direction = Direction.receipt)
    (hinv : stockInvariant db) :
    stockInvariant (receiveStep tid db it) := by
  have hq : entrySign db.stock_transactions ⟨tid, it.material_id, it.quantity⟩ =
      it.quantity := by
    rw [entrySign_eq_of_find db.stock_transactions t tid it.material_id it.quantity hfind,
      ht]
  have h2 := invL_insert db.materials db.stock_transactions db.stock_transaction_items
    tid it.material_id it.quantity hinv
  rw [hq] at h2
  exact h2

theorem wfIds_receiveStep (db : DB) (tid : Nat) (it : StockItemInput)
    (hwf : wfIds db) (htid : tid < db.nextId) : wfIds (receiveStep tid db it) := by
  refine ⟨hwf.1, ?_⟩
  intro x hx
  rcases List.mem_append.1 hx with h | h
  · exact hwf.2 x h
  · simp at h
    subst h
    exact htid

theorem stockInvariant_consumeStep (db : DB) (admin_id mid sid : Nat) (tu : Int)
    (hwf : wfIds db) (hinv : stockInvariant db) :
    stockInvariant (consumeStep admin_id db mid sid tu) := by
  have hfreshitems : ∀ it ∈ db.stock_transaction_items,
      it.stock_transaction_id ≠ db.nextId :=
    fun it hit => Nat.ne_of_lt (hwf.2 it hit)
  have hfreshtxns : ∀ x ∈ db.stock_transactions, x.id ≠ db.nextId :=
    fun x hx => Nat.ne_of_lt (hwf.1 x hx)
  have h1 : invL db.materials
      (db.stock_transactions ++
        [(⟨db.nextId, .consumption, "STT002", sid, some admin_id, none⟩ : StockTxn)])
      db.stock_transaction_items :=
    invL_append_txn _ _ _ _ hfreshitems hinv
  have hfind : (db.stock_transactions ++
      [(⟨db.nextId, .consumption, "STT002", sid, some admin_id, none⟩ : StockTxn)]).find?
      (fun x => x.id = db.nextId) =
      some ⟨db.nextId, .consumption, "STT002", sid, some admin_id, none⟩ :=
    find?_append_sing_self db.stock_transactions _ db.nextId rfl hfreshtxns
  have hq : entrySign
      (db.stock_transactions ++
        [(⟨db.nextId, .consumption, "STT002", sid, some admin_id, none⟩ : StockTxn)])
      ⟨db.nextId, mid, tu⟩ = -tu := by
    rw [entrySign_eq_of_find _ _ _ mid tu hfind]
  have h2 := invL_insert db.materials
    (db.stock_transactions ++
      [(⟨db.nextId, .consumption, "STT002", sid, some admin_id, none⟩ : StockTxn)])
    db.stock_transaction_items db.nextId mid tu h1
  rw [hq] at h2
  exact h2

theorem wfIds_consumeStep (db : DB) (admin_id mid sid : Nat) (tu : Int)
    (hwf : wfIds db) : wfIds (consumeStep admin_id db mid sid tu) := by
  constructor
  · intro t ht
    rcases List.mem_append.1 ht with h | h
    · exact Nat.lt_trans (hwf.1 t h) (Nat.lt_succ_self _)
    · simp at h
      subst h
      exact Nat.lt_succ_self _
  · intro it hit
    rcases List.mem_append.1 hit with h | h
    · exact Nat.lt_trans (hwf.2 it h) (Nat.lt_succ_self _)
    · simp at h
      subst h
      exact Nat.lt_succ_self _

theorem stockItemsLoop_inv (tid : Nat) (t : StockTxn)
    (ht : t.direction = Direction.receipt) :
    ∀ (items : List StockItemInput) (db : DB),
      db.stock_transactions.find? (fun x => x.id = tid) = some t →
      tid < db.nextId →
      stockInvariant db → wfIds db →
      stockInvariant (stockItemsLoop tid db items) ∧
        wfIds (stockItemsLoop tid db items) := by
  intro items
  induction items with
  | nil => exact fun db _ _ hinv hwf => ⟨hinv, hwf⟩
  | cons it rest ih =>
    intro db hfind htid hinv hwf
    exact ih (receiveStep tid db it) hfind htid
      (stockInvariant_receiveStep db tid t it hfind ht hinv)
      (wfIds_receiveStep db tid it hwf htid)

theorem applyMaterials_inv (admin_id : Nat) (quantity : Int) :
    ∀ (rows : List (Nat × Int)) (db db' : DB),
      applyMaterials admin_id quantity db rows = .ok db' →
      stockInvariant db → wfIds db →
      stockInvariant db' ∧ wfIds db' := by
  intro rows
  induction rows with
  | nil =>
    intro db db' h hinv hwf
    cases h
    exact ⟨hinv, hwf⟩
  | cons r rest ih =>
    intro db db' h hinv hwf
    obtain ⟨mid, uq⟩ := r
    unfold applyMaterials at h
    cases hm : findMaterial db mid with
    | none => rw [hm] at h; cases h
    | some mat =>
      rw [hm] at h
      dsimp only at h
      cases hs : mat.supplier_id with
      | none => rw [hs] at h; cases h
      | some sid =>
        rw [hs] at h
        exact ih (consumeStep admin_id db mid sid (uq * quantity)) db' h
          (stockInvariant_consumeStep db admin_id mid sid (uq * quantity) hwf hinv)
          (wfIds_consumeStep db admin_id mid sid (uq * quantity) hwf)

theorem applyItems_inv (admin_id tid : Nat) :
    ∀ (its : List OrderItemInput) (db : DB) (total : Int) (res : DB × Int),
      applyItems admin_id tid db total its = .ok res →
      stockInvariant db → wfIds db →
      stockInvariant res.1 ∧ wfIds res.1 := by
  intro its
  induction its with
  | nil =>
    intro db total res h hinv hwf
    cases h
    exact ⟨hinv, hwf⟩
  | cons it rest ih =>
    intro db total res h hinv hwf
    unfold applyItems at h
    cases hp : findProduct db it.product_id with
    | none => rw [hp] at h; cases h
    | some prod =>
      rw [hp] at h
      dsimp only at h
      cases ha : applyMaterials admin_id it.quantity db
          ((db.product_materials.filter (fun l => l.product_id = it.product_id)).map
            (fun l => (l.material_id, l.used_quantity))) with
      | error e => rw [ha] at h; cases h
      | ok db1 =>
        rw [ha] at h
        have h1 := applyMaterials_inv admin_id it.quantity _ db db1 ha hinv hwf
        exact ih _ _ res h h1.1 h1.2

theorem runOrderTxn_inv (db : DB) (cid : Nat) (data : OrderData) (res : DB × Nat)
    (h : runOrderTxn db cid data = .ok res)
    (hinv : stockInvariant db) (hwf : wfIds db) :
    stockInvariant res.1 ∧ wfIds res.1 := by
  unfold runOrderTxn at h
  split at h
  · cases ha : applyItems data.admin_id db.nextId (insertOrderHeader db cid data) 0
        data.items with
    | error e => rw [ha] at h; cases h
    | ok p =>
      rw [ha] at h
      obtain ⟨dbx, total⟩ := p
      cases h
      have hwfHdr : wfIds (insertOrderHeader db cid data) :=
        wfL_mono db.nextId (db.nextId + 1) _ _ (Nat.le_succ _) hwf
      exact applyItems_inv data.admin_id db.nextId data.items
        (insertOrderHeader db cid data) 0 (dbx, total) ha hinv hwfHdr
  · cases h

theorem resolveSupplier_fields (db : DB) (data : StockData) (res : DB × Nat)
    (h : resolveSupplier db data = .ok res) :
    res.1.materials = db.materials ∧
    res.1.stock_transactions = db.stock_transactions ∧
    res.1.stock_transaction_items = db.stock_transaction_items ∧
    db.nextId ≤ res.1.nextId := by
  unfold resolveSupplier at h
  cases hs : data.supplier_id with
  | some s =>
    rw [hs] at h
    cases h
    exact ⟨rfl, rfl, rfl, Nat.le_refl _⟩
  | none =>
    rw [hs] at h
    cases hc : data.supplier with
    | none => rw [hc] at h; cases h
    | some sup =>
      rw [hc] at h
      dsimp only at h
      split at h
      · cases h
      · cases h
        exact ⟨rfl, rfl, rfl, Nat.le_succ _⟩

theorem stock_materials_success_inv (db0 : DB) (stid : String) (sid : Nat)
    (a e : Option Nat) (items : List StockItemInput)
    (hinv0 : stockInvariant db0) (hwf0 : wfIds db0) :
    stockInvariant
      (stockItemsLoop db0.nextId (insertStockTxn db0 stid sid a e) items) ∧
    wfIds (stockItemsLoop db0.nextId (insertStockTxn db0 stid sid a e) items) := by
  have hfreshitems : ∀ it ∈ db0.stock_transaction_items,
      it.stock_transaction_id ≠ db0.nextId :=
    fun it hit => Nat.ne_of_lt (hwf0.2 it hit)
  have hfreshtxns : ∀ x ∈ db0.stock_transactions, x.id ≠ db0.nextId :=
    fun x hx => Nat.ne_of_lt (hwf0.1 x hx)
  have hinv1 : stockInvariant (insertStockTxn db0 stid sid a e) :=
    invL_append_txn db0.materials db0.stock_transactions db0.stock_transaction_items
      ⟨db0.nextId, .receipt, stid, sid, a, e⟩ hfreshitems hinv0
  have hwf1 : wfIds (insertStockTxn db0 stid sid a e) := by
    constructor
    · intro x hx
      rcases List.mem_append.1 hx with hx | hx
      · exact Nat.lt_trans (hwf0.1 x hx) (Nat.lt_succ_self _)
      · simp at hx
        subst hx
        exact Nat.lt_succ_self _
    · intro it hit
      exact Nat.lt_trans (hwf0.2 it hit) (Nat.lt_succ_self _)
  have hfind : (insertStockTxn db0 stid sid a e).stock_transactions.find?
      (fun x => x.id = db0.nextId) =
      some ⟨db0.nextId, .receipt, stid, sid, a, e⟩ :=
    find?_append_sing_self db0.stock_transactions _ db0.nextId rfl hfreshtxns
  exact stockItemsLoop_inv db0.nextId ⟨db0.nextId, .receipt, stid, sid, a, e⟩ rfl items
    (insertStockTxn db0 stid sid a e) hfind (Nat.lt_succ_self _) hinv1 hwf1

/-- C3: both mutators of the stock tables preserve the ledger–counter
invariant.  Starting from a well-formed state in which every material's
`current_stock` equals its signed ledger sum, any successful
`stock_materials` call (which pairs every ledger item insertion with the
matching +quantity counter update in the same atomic scope) and any
`create_order_transaction` call — successful or rolled back (the
rolled-back state is the pre-state plus at most a customer row) — leave a
state in which the invariant again holds. -/
theorem stock_ops_preserve_ledger_invariant (db : DB)
    (hwf : wfIds db) (hinv : stockInvariant db) :
    (∀ (sdata : StockData) (res : DB × Nat),
      stock_materials db sdata = .ok res → stockInvariant res.1 ∧ wfIds res.1) ∧
    (∀ odata : OrderData,
      stockInvariant (create_order_transaction db odata).1 ∧
      wfIds (create_order_transaction db odata).1) := by
  constructor
  · intro sdata res h
    unfold stock_materials at h
    cases hs : resolveSupplier db sdata with
    | error e => rw [hs] at h; cases h
    | ok p =>
      rw [hs] at h
      obtain ⟨fm, ft, fi, fn⟩ := resolveSupplier_fields db sdata p hs
      obtain ⟨db0, sid⟩ := p
      have hinv0 : stockInvariant db0 := by
        show invL db0.materials db0.stock_transactions db0.stock_transaction_items
        rw [fm, ft, fi]
        exact hinv
      have hwf0 : wfIds db0 := by
        show wfL db0.nextId db0.stock_transactions db0.stock_transaction_items
        rw [ft, fi]
        exact wfL_mono db.nextId db0.nextId _ _ fn hwf
      dsimp only at h
      cases ht : resolveStockType db0 sdata with
      | error e => rw [ht] at h; cases h
      | ok stid =>
        rw [ht] at h
        cases ha : sdata.admin_id with
        | none =>
          cases he : sdata.employee_id with
          | none => rw [ha, he] at h; cases h
          | some e1 =>
            rw [ha, he] at h
            cases h
            exact stock_materials_success_inv db0 stid sid none (some e1)
              sdata.items hinv0 hwf0
        | some a1 =>
          rw [ha] at h
          cases he : sdata.employee_id with
          | none =>
            rw [he] at h
            cases h
            exact stock_materials_success_inv db0 stid sid (some a1) none
              sdata.items hinv0 hwf0
          | some e1 =>
            rw [he] at h
            cases h
            exact stock_materials_success_inv db0 stid sid (some a1) (some e1)
              sdata.items hinv0 hwf0
  · intro odata
    unfold create_order_transaction
    cases hcid : odata.customer_id with
    | some cid =>
      dsimp only
      cases hr : runOrderTxn db cid odata with
      | ok p =>
        obtain ⟨db2, tid⟩ := p
        exact runOrderTxn_inv db cid odata (db2, tid) hr hinv hwf
      | error e2 => exact ⟨hinv, hwf⟩
    | none =>
      cases hcd : odata.customer with
      | none =>
        dsimp only
        exact ⟨hinv, hwf⟩
      | some cd =>
        dsimp only
        have hinvC : stockInvariant (insertCustomer db cd) := hinv
        have hwfC : wfIds (insertCustomer db cd) :=
          wfL_mono db.nextId (db.nextId + 1) _ _ (Nat.le_succ _) hwf
        cases hr : runOrderTxn (insertCustomer db cd) db.nextId odata with
        | ok p =>
          obtain ⟨db2, tid⟩ := p
          exact runOrderTxn_inv (insertCustomer db cd) db.nextId odata (db2, tid)
            hr hinvC hwfC
        | error e2 => exact ⟨hinvC, hwfC⟩

/-- Witness for C3 at a concrete state: the hypotheses hold, the
receiving call succeeds, and the invariant is preserved by both the
receiving call and the order call. -/
theorem stock_ops_preserve_ledger_invariant_witness :
    wfIds dbInv ∧ stockInvariant dbInv ∧
    stock_materials dbInv sdataInv = .ok resInv ∧
    (stockInvariant resInv.1 ∧ wfIds resInv.1) ∧
    (stockInvariant (create_order_transaction dbInv odataInv).1 ∧
      wfIds (create_order_transaction dbInv odataInv).1) :=
  ⟨by decide, by decide, by decide,
    (stock_ops_preserve_ledger_invariant dbInv (by decide) (by decide)).1 sdataInv
      resInv (by decide),
    (stock_ops_preserve_ledger_invariant dbInv (by decide) (by decide)).2 odataInv⟩
